import Mathlib

/-!
Verification of the astroquery CADC TAP client (astroquery/cadc/core.py):
a shallow embedding of its registry parsing, query building, DataLink URL
resolution, job dispatch and job-result extraction, together with theorems
about the behaviour of these functions.

Python strings are modelled as `String` / `List Char`; the string helpers
of the standard library that the source uses (split, strip, splitlines,
startswith) are embedded as executable functions below so every statement
can be evaluated on concrete inputs.
-/

namespace Cadc

/-- Python exceptions raised on the embedded code paths. -/
inductive PyError where
  | valueError : PyError
  | attributeError : String → PyError
  | runtimeError : String → PyError
  | unboundLocalError : PyError
deriving DecidableEq

/-- Characters stripped by Python str.strip (ASCII whitespace). -/
def pySpace (c : Char) : Bool :=
  c == ' ' || c == '\t' || c == '\n' || c == '\r' || c == '\x0b' || c == '\x0c'

/-- Drop leading whitespace characters. -/
def dropSpace : List Char → List Char
  | [] => []
  | c :: rest => if pySpace c then dropSpace rest else c :: rest

/-- Python str.strip: remove leading and trailing whitespace. -/
def pystrip (l : List Char) : List Char :=
  (dropSpace ((dropSpace l).reverse)).reverse

/-- Python str.split(sep) for a one-character separator: split on every
occurrence of the separator, keeping empty parts. -/
def pysplit (sep : Char) : List Char → List (List Char)
  | [] => [[]]
  | c :: rest =>
    match pysplit sep rest with
    | [] => [[c]]
    | h :: t => if c = sep then [] :: h :: t else (c :: h) :: t

/-- Python str.splitlines restricted to the newline character: the list of
lines, without a trailing empty line when the text ends in a newline. -/
def pylines (l : List Char) : List (List Char) :=
  let parts := pysplit '\n' l
  if parts.getLast? = some [] then parts.dropLast else parts

/-- Python line.startswith('#'). -/
def startsWithHash : List Char → Bool
  | [] => false
  | c :: _ => c == '#'

/-- Python dict assignment d[k] = v on an insertion-ordered dictionary:
replace in place when the key exists, append otherwise. -/
def dictInsert : List (String × String) → String → String → List (String × String)
  | [], k, v => [(k, v)]
  | (k₁, v₁) :: rest, k, v =>
    if k₁ = k then (k, v) :: rest else (k₁, v₁) :: dictInsert rest k v

/-- Python dict lookup. -/
def dictFind : List (String × String) → String → Option String
  | [], _ => none
  | (k₁, v₁) :: rest, k => if k₁ = k then some v₁ else dictFind rest k

/-- Whether the _parse_reg loop processes a line:
`len(line) > 0 and not line.startswith('#')`. -/
def regLineGood (l : List Char) : Bool :=
  decide (0 < l.length) && !(startsWithHash l)

/-- One loop iteration of CadcClass._parse_reg: the tuple unpacking
`service_id, capabilies_url = line.split('=')` followed by the dict
assignment of the stripped sides; the unpacking raises a ValueError unless
the split yields exactly two parts, i.e. unless the line contains exactly
one '=' character. -/
def parseRegLine (caps : List (String × String)) (line : List Char) :
    Except PyError (List (String × String)) :=
  if regLineGood line then
    match pysplit '=' line with
    | [service_id, capabilies_url] =>
      .ok (dictInsert caps (String.mk (pystrip service_id)) (String.mk (pystrip capabilies_url)))
    | _ => .error .valueError
  else .ok caps

/-- CadcClass._parse_reg: fold the per-line step over the lines of the
registry document. -/
def _parse_reg (content : String) : Except PyError (List (String × String)) :=
  (pylines content.data).foldlM parseRegLine []

/-- The key of the mapping entry a registry line would produce: the part
before the first '=', stripped. -/
def regKeyOf (l : List Char) : String :=
  match pysplit '=' l with
  | a :: _ => String.mk (pystrip a)
  | [] => ""

/-- The value of the mapping entry a one-'=' registry line produces: the
part after the '=', stripped. -/
def regValOf (l : List Char) : String :=
  match pysplit '=' l with
  | [_, b] => String.mk (pystrip b)
  | _ => ""

/-- The lines of a registry document that _parse_reg processes. -/
def regLines (content : String) : List (List Char) :=
  (pylines content.data).filter regLineGood

/-- The fixed ADQL template of CadcClass._args_to_payload, with the
renderings of right ascension, declination and radius interpolated by
str.format. -/
def baseQuery (ra dec radius : String) : String :=
  "SELECT * from caom2.Observation o join caom2.Plane p ON o.obsID=p.obsID WHERE INTERSECTS( CIRCLE('ICRS', "
    ++ ra ++ ", " ++ dec ++ ", " ++ radius
    ++ "), position_bounds) = 1 AND (quality_flag IS NULL OR quality_flag != 'junk')"

/-- Keys of the request payload dictionary: ordinary string keys, plus the
Python builtin function `format`, which the source uses as a key by
writing the bare name format (without quotes) in the dict literal that
initialises the payload. -/
inductive PayloadKey where
  | str : String → PayloadKey
  | pyBuiltinFormat : PayloadKey
deriving DecidableEq

/-- Python dict assignment for the payload dictionary. -/
def payloadInsert : List (PayloadKey × String) → PayloadKey → String → List (PayloadKey × String)
  | [], k, v => [(k, v)]
  | (k₁, v₁) :: rest, k, v =>
    if k₁ = k then (k, v) :: rest else (k₁, v₁) :: payloadInsert rest k v

/-- Python dict lookup for the payload dictionary. -/
def payloadFind : List (PayloadKey × String) → PayloadKey → Option String
  | [], _ => none
  | (k₁, v₁) :: rest, k => if k₁ = k then some v₁ else payloadFind rest k

/-- Python truthiness of the collection argument: None and the empty
string are falsy, every other string is truthy. -/
def pyTruthy : Option String → Bool
  | none => false
  | some s => !(s == "")

/-- CadcClass._args_to_payload. The coordinates arrive already resolved
(coordinate parsing is delegated to astroquery.utils.commons); ra, dec and
radius stand for the decimal renderings interpolated by str.format. The
source initialises the dict with the bare builtin name format as its first
key (value 'VOTable'), stores the ADQL under 'query', and, when
`['collection' in kwargs] and kwargs['collection']` is truthy — the
one-element list is always truthy, so only the value's truthiness
matters — rebinds 'query' to the query extended with the collection
clause. -/
def _args_to_payload (ra dec radius : String) (collection : Option String) :
    List (PayloadKey × String) :=
  let payload := payloadInsert [(PayloadKey.pyBuiltinFormat, "VOTable")]
    (PayloadKey.str "query") (baseQuery ra dec radius)
  if pyTruthy collection then
    payloadInsert payload (PayloadKey.str "query")
      (((payloadFind payload (PayloadKey.str "query")).getD "")
        ++ " AND collection='" ++ collection.getD "" ++ "'")
  else payload

/-- The ADQL string stored under the 'query' key of a payload. -/
def queryOf (p : List (PayloadKey × String)) : String :=
  (payloadFind p (PayloadKey.str "query")).getD ""

/-- Characters of a plain decimal number rendering (digits, decimal point
and sign), as produced by str.format for coordinate degrees and radii. -/
def numChar (c : Char) : Bool :=
  c.isDigit || c == '.' || c == '-' || c == '+'

/-- One row of a DataLink VOTable response: its semantics tag and its
access URL, decoded to ASCII; an absent URL is the empty string. -/
structure DataLinkRow where
  semantics : String
  access_url : String
deriving DecidableEq

/-- A TAP result table as seen by get_data_urls: its row count (astropy
table truthiness is `row count ≠ 0`) and its named columns. -/
structure QueryResult where
  nrows : Nat
  columns : List (String × List String)
deriving DecidableEq

/-- Column access query_result[name]: the column data, or none for the
KeyError the source catches. -/
def getColumn (t : QueryResult) (name : String) : Option (List String) :=
  (t.columns.find? (fun c => c.1 == name)).map (fun c => c.2)

/-- The inner row loop of get_data_urls over one DataLink response: a
'#this' row's URL is always appended; any other row's URL is appended only
when it is non-empty and include_auxilaries is set. -/
def extractUrls (include_auxilaries : Bool) (rows : List DataLinkRow) : List String :=
  rows.foldl (fun result row =>
    if row.semantics == "#this" then result ++ [row.access_url]
    else if !(row.access_url == "") && include_auxilaries then result ++ [row.access_url]
    else result) []

/-- Outcome of one get_data_urls call: the DataLink requests issued (one
ID per publisher id, in order) and the returned URL list or the raised
error. -/
structure DLOutcome where
  requests : List String
  result : Except PyError (List String)

/-- CadcClass.get_data_urls. The DataLink HTTP round trip and the VOTable
parsing are delegated collaborators, abstracted as the `datalink` function
from a publisher id to the parsed rows of its response. -/
def get_data_urls (datalink : String → List DataLinkRow)
    (query_result : QueryResult) (include_auxilaries : Bool) : DLOutcome :=
  if query_result.nrows = 0 then
    ⟨[], .error (.attributeError "Missing metadata argument")⟩
  else
    match getColumn query_result "caomPublisherID" with
    | none =>
      ⟨[], .error (.attributeError "caomPublisherID column missing from query_result argument")⟩
    | some publisher_ids =>
      ⟨publisher_ids,
        .ok (publisher_ids.foldl (fun result pid =>
          result ++ extractUrls include_auxilaries (datalink pid)) [])⟩

/-- The local job wrapper JobCadc, with the fields core.py reads or
writes. Modelled from the spec: the JobCadc class itself lives outside
this module (astroquery.cadc.cadctap.job); the spec lists its data
(identifier, query text, output format, response status, remote location,
result table, completion phase) and its phases (PENDING, EXECUTING,
COMPLETED, ERROR, ABORTED). -/
structure JobCadc where
  async_job : Bool
  jobid : String
  outputFile : Option String
  responseStatus : Nat
  responseMsg : String
  remoteLocation : Option String
  formatParam : String
  queryParam : String
  phase : String
  results : Option (List (List String))
deriving DecidableEq

/-- Modelled from the spec: the construction JobCadc(async_job=...,
query=..., connhandler=...) of a fresh wrapper — phase PENDING, no
results, empty remaining fields. -/
def JobCadc.mkNew (async_job : Bool) (queryParam : String) : JobCadc :=
  ⟨async_job, "", none, 0, "", none, "", queryParam, "PENDING", none⟩

/-- CadcClass._parse_result: reading results from a job raises a
RuntimeError unless the job phase is COMPLETED. -/
def _parse_result (result : JobCadc) : Except PyError (Option (List (List String))) :=
  if result.phase ≠ "COMPLETED" then .error (.runtimeError "Query not completed")
  else .ok result.results

/-- A job object of the delegated TAP client, with the fields run_query
copies onto the local wrapper. -/
structure TapJob where
  jobid : String
  outputFile : Option String
  responseStatus : Nat
  responseMsg : String
  remoteLocation : Option String
  formatParam : String
  queryParam : String
  phase : String
  results : Option (List (List String))
deriving DecidableEq

/-- The delegated TAP client: launch_job and launch_job_async take the
query, the output file and the dump flag and return the delegated job;
fetch_results models JobCadc.get_results for an asynchronous job. -/
structure TapClient where
  launch_job : String → Option String → Bool → TapJob
  launch_job_async : String → Option String → Bool → TapJob
  fetch_results : String → Option (List (List String))

/-- Trace of one run_query call: which launch operations were invoked, in
order, and the returned wrapper or the raised error. -/
structure RunQueryTrace where
  launched : List String
  outcome : Except PyError JobCadc

/-- CadcClass.run_query. For an operation other than 'sync' or 'async'
neither branch assigns the locals job and op, and their first read —
evaluating JobCadc(async_job=op, ...) — raises UnboundLocalError; the
`none` case of the match models that read of the unbound locals. The
copying of the delegated job's fields onto the wrapper follows the source;
saving results to a file is an I/O effect outside the embedding, so in
that branch the in-memory results stay unset. -/
def run_query (client : TapClient) (query : String) (operation : String)
    (output_file : Option String) : RunQueryTrace :=
  let save_to_file := output_file.isSome
  let jobop : Option (TapJob × Bool) :=
    if operation = "sync" then
      some (client.launch_job query output_file save_to_file, false)
    else if operation = "async" then
      some (client.launch_job_async query output_file save_to_file, true)
    else none
  match jobop with
  | none => ⟨[], .error .unboundLocalError⟩
  | some (job, op) =>
    let cjob : JobCadc :=
      { JobCadc.mkNew op job.queryParam with
        jobid := job.jobid
        outputFile := job.outputFile
        responseStatus := job.responseStatus
        responseMsg := job.responseMsg
        remoteLocation := job.remoteLocation
        formatParam := job.formatParam
        phase := job.phase }
    let cjob :=
      if op then
        if save_to_file then cjob
        else { cjob with results := client.fetch_results job.jobid }
      else
        match job.results with
        | some r => { cjob with results := some r }
        | none => cjob
    ⟨[if op then "async" else "sync"], .ok cjob⟩

/-- A job as reported by the delegated client's list_async_jobs. -/
structure ListedJob where
  jobid : String
deriving DecidableEq

/-- An HTTP error raised by the delegated TAP client. -/
structure HttpError where
  status : Nat
deriving DecidableEq

/-- CadcClass.list_async_jobs: delegate the listing, wrap each reported
job in a fresh local JobCadc carrying its id; an HTTPError from the
delegate is caught and turned into None; a None job list from the
delegate yields the empty list. -/
def list_async_jobs (delegated : Except HttpError (Option (List ListedJob))) :
    Option (List JobCadc) :=
  match delegated with
  | .error _ => none
  | .ok none => some []
  | .ok (some joblist) =>
    some (joblist.map (fun job => { JobCadc.mkNew true "" with jobid := job.jobid }))

/-! ### Helper lemmas -/

/-- The payload dictionary built by _args_to_payload, in closed form: the
builtin-format key bound to 'VOTable' and the string key 'query' bound to
the template, extended with the collection clause when the collection is
truthy. -/
theorem args_to_payload_eq (ra dec radius : String) (collection : Option String) :
    _args_to_payload ra dec radius collection =
      [(PayloadKey.pyBuiltinFormat, "VOTable"),
       (PayloadKey.str "query",
         if pyTruthy collection then
           baseQuery ra dec radius ++ " AND collection='" ++ collection.getD "" ++ "'"
         else baseQuery ra dec radius)] := by
  cases h : pyTruthy collection <;>
    simp [_args_to_payload, h, payloadInsert, payloadFind]

/-- The ADQL string of the payload, in closed form. -/
theorem queryOf_args_to_payload (ra dec radius : String) (collection : Option String) :
    queryOf (_args_to_payload ra dec radius collection) =
      if pyTruthy collection then
        baseQuery ra dec radius ++ " AND collection='" ++ collection.getD "" ++ "'"
      else baseQuery ra dec radius := by
  rw [queryOf, args_to_payload_eq]
  simp [payloadFind]

/-- A pattern sharing no character with the list v cannot start inside v:
dropping a leading v from the ambient list preserves being a prefix. -/
theorem preCancelLeft {p v y : List Char} (hd : ∀ c ∈ p, c ∉ v)
    (h : p <+: v ++ y) : p <+: y := by
  cases v with
  | nil => simpa using h
  | cons a v' =>
    cases p with
    | nil => exact List.nil_prefix
    | cons b p' =>
      exfalso
      obtain ⟨t, ht⟩ := h
      simp only [List.cons_append] at ht
      injection ht with h1 h2
      subst h1
      exact hd b (List.mem_cons_self b p') (List.mem_cons_self b v')

/-- A pattern sharing no character with the list v placed between x and y
is a prefix of the ambient list with v removed. -/
theorem preCancelMid {p x v y : List Char} (hd : ∀ c ∈ p, c ∉ v)
    (h : p <+: x ++ (v ++ y)) : p <+: x ++ y := by
  induction x generalizing p with
  | nil =>
    simp only [List.nil_append] at h ⊢
    exact preCancelLeft hd h
  | cons a x' ih =>
    cases p with
    | nil => exact List.nil_prefix
    | cons b p' =>
      obtain ⟨t, ht⟩ := h
      simp only [List.cons_append] at ht
      injection ht with h1 h2
      subst h1
      have hrec := ih (fun c hc => hd c (List.mem_cons_of_mem _ hc)) ⟨t, h2⟩
      obtain ⟨t', ht'⟩ := hrec
      exact ⟨t', by simp [List.cons_append, ht']⟩

/-- A pattern sharing no character with a leading segment v of the ambient
list occurs after it. -/
theorem infCancelLeft {p v y : List Char} (hd : ∀ c ∈ p, c ∉ v)
    (h : p <:+: v ++ y) : p <:+: y := by
  induction v with
  | nil => simpa using h
  | cons a v' ih =>
    obtain ⟨s, t, hst⟩ := h
    cases s with
    | nil =>
      have hp : p <+: (a :: v') ++ y := ⟨t, by simpa using hst⟩
      exact List.IsPrefix.isInfix (preCancelLeft hd hp)
    | cons c s' =>
      simp only [List.cons_append] at hst
      injection hst with h1 h2
      exact ih (fun ch hc hv => hd ch hc (List.mem_cons_of_mem _ hv)) ⟨s', t, h2⟩

/-- An occurrence of a pattern sharing no character with the segment v
placed between x and y lies in x or in y: the occurrence survives the
removal of v. -/
theorem infCancelMid {p x v y : List Char} (hd : ∀ c ∈ p, c ∉ v)
    (h : p <:+: x ++ (v ++ y)) : p <:+: x ++ y := by
  induction x with
  | nil =>
    simp only [List.nil_append] at h ⊢
    exact infCancelLeft hd h
  | cons a x' ih =>
    obtain ⟨s, t, hst⟩ := h
    cases s with
    | nil =>
      have hp : p <+: (a :: x') ++ (v ++ y) := ⟨t, by simpa using hst⟩
      exact List.IsPrefix.isInfix (preCancelMid hd hp)
    | cons c s' =>
      simp only [List.cons_append] at hst
      injection hst with h1 h2
      obtain ⟨s'', t'', h3⟩ := ih ⟨s', t, h2⟩
      exact ⟨a :: s'', t'', by simp [List.cons_append, h3]⟩

/-- No character of the collection-clause pattern is a number character. -/
theorem collectPatNotNum : ∀ c ∈ ("collection='").data, numChar c = false := by decide

/-- A string of number characters shares no character with the
collection-clause pattern. -/
theorem disjOfNum {v : List Char} (hv : v.all numChar = true) :
    ∀ c ∈ ("collection='").data, c ∉ v := by
  intro c hc hcv
  have h1 : numChar c = true := List.all_eq_true.mp hv c hcv
  have h2 : numChar c = false := collectPatNotNum c hc
  rw [h1] at h2
  exact Bool.noConfusion h2

set_option maxRecDepth 32768 in
/-- Under plain numeric renderings of ra, dec and radius, the base ADQL
query contains no collection clause: any occurrence of the pattern would
have to overlap one of the interpolated numbers (impossible, their
characters are disjoint from the pattern) or lie inside the fixed template
text (checked by computation). -/
theorem collectionNotInBase (ra dec radius : String)
    (hra : ra.data.all numChar = true) (hdec : dec.data.all numChar = true)
    (hrad : radius.data.all numChar = true) :
    ¬ (("collection='").data <:+: (baseQuery ra dec radius).data) := by
  intro h
  have h1 : ("collection='").data <:+:
      ("SELECT * from caom2.Observation o join caom2.Plane p ON o.obsID=p.obsID WHERE INTERSECTS( CIRCLE('ICRS', ").data
      ++ (ra.data ++ ((", ").data ++ (dec.data ++ ((", ").data ++ (radius.data
      ++ ("), position_bounds) = 1 AND (quality_flag IS NULL OR quality_flag != 'junk')").data))))) := by
    simpa [baseQuery, String.data_append, List.append_assoc] using h
  have h2 := infCancelMid (disjOfNum hra) h1
  rw [← List.append_assoc] at h2
  have h3 := infCancelMid (disjOfNum hdec) h2
  rw [← List.append_assoc] at h3
  have h4 := infCancelMid (disjOfNum hrad) h3
  exact absurd h4 (by decide)

/-- A list of length two is a two-element list. -/
theorem lengthTwo {α : Type} {xs : List α} (h : xs.length = 2) : ∃ a b, xs = [a, b] := by
  match xs with
  | [a, b] => exact ⟨a, b, rfl⟩
  | [] => simp at h
  | [a] => simp at h
  | a :: b :: c :: t => simp only [List.length_cons] at h; omega

/-- Looking up a key in a dict extended with a fresh entry. -/
theorem dictFind_append_single (m : List (String × String)) (k k' v : String)
    (h : dictFind m k' = none) :
    dictFind (m ++ [(k, v)]) k' = if k = k' then some v else none := by
  induction m with
  | nil => simp [dictFind]
  | cons p rest ih =>
    obtain ⟨k₁, v₁⟩ := p
    by_cases hk : k₁ = k'
    · simp only [dictFind, if_pos hk] at h
      exact Option.noConfusion h
    · simp only [dictFind, if_neg hk] at h
      simp only [List.cons_append, dictFind, if_neg hk]
      exact ih h

/-- Inserting a key absent from the dict appends the entry. -/
theorem dictInsert_fresh (m : List (String × String)) (k v : String)
    (h : dictFind m k = none) : dictInsert m k v = m ++ [(k, v)] := by
  induction m with
  | nil => rfl
  | cons p rest ih =>
    obtain ⟨k₁, v₁⟩ := p
    by_cases hk : k₁ = k
    · simp only [dictFind, if_pos hk] at h
      exact Option.noConfusion h
    · simp only [dictFind, if_neg hk] at h
      simp only [dictInsert, if_neg hk, List.cons_append]
      rw [ih h]

/-- The _parse_reg loop, for documents whose processed lines each contain
exactly one '=' and carry pairwise-distinct keys none of which is already
bound in the accumulator: it extends the accumulator with one entry per
processed line, in order. -/
theorem parse_reg_fold (lines : List (List Char)) (acc : List (String × String))
    (hsplit : ∀ l ∈ lines, regLineGood l = true → (pysplit '=' l).length = 2)
    (hfresh : ∀ l ∈ lines, regLineGood l = true → dictFind acc (regKeyOf l) = none)
    (hnodup : ((lines.filter regLineGood).map regKeyOf).Nodup) :
    lines.foldlM parseRegLine acc
      = .ok (acc ++ (lines.filter regLineGood).map (fun l => (regKeyOf l, regValOf l))) := by
  induction lines generalizing acc with
  | nil =>
    show Except.ok acc = _
    simp
  | cons l ls ih =>
    rw [List.foldlM_cons]
    cases hg : regLineGood l with
    | false =>
      have hstep : parseRegLine acc l = .ok acc := by
        simp [parseRegLine, hg]
      rw [hstep]
      show ls.foldlM parseRegLine acc = _
      simp only [List.filter_cons, hg] at hnodup ⊢
      simp only [Bool.false_eq_true, if_false]
      exact ih acc (fun l' hl' => hsplit l' (List.mem_cons_of_mem _ hl'))
        (fun l' hl' => hfresh l' (List.mem_cons_of_mem _ hl')) hnodup
    | true =>
      have hmem : l ∈ l :: ls := List.mem_cons_self l ls
      obtain ⟨a, b, hab⟩ := lengthTwo (hsplit l hmem hg)
      have hkey : regKeyOf l = String.mk (pystrip a) := by simp [regKeyOf, hab]
      have hval : regValOf l = String.mk (pystrip b) := by simp [regValOf, hab]
      have hfr : dictFind acc (regKeyOf l) = none := hfresh l hmem hg
      simp only [List.filter_cons, hg, if_true, List.map_cons] at hnodup ⊢
      obtain ⟨hnotmem, htail⟩ := List.nodup_cons.mp hnodup
      have hstep : parseRegLine acc l = .ok (acc ++ [(regKeyOf l, regValOf l)]) := by
        simp only [parseRegLine, hg, if_true, hab]
        rw [← hkey, ← hval, dictInsert_fresh acc _ _ hfr]
      rw [hstep]
      show ls.foldlM parseRegLine (acc ++ [(regKeyOf l, regValOf l)]) = _
      rw [ih (acc ++ [(regKeyOf l, regValOf l)])
        (fun l' hl' => hsplit l' (List.mem_cons_of_mem _ hl'))
        ?_ htail]
      · simp [List.append_assoc]
      · intro l' hl' hg'
        rw [dictFind_append_single acc _ _ _ (hfresh l' (List.mem_cons_of_mem _ hl') hg')]
        rw [if_neg]
        intro heq
        exact hnotmem (heq ▸ List.mem_map_of_mem regKeyOf (List.mem_filter.mpr ⟨hl', hg'⟩))

/-- The inner row loop of get_data_urls, with a general accumulator: it
appends the access URLs of the rows kept by the selection predicate. -/
theorem extract_foldl (aux : Bool) (rows : List DataLinkRow) (acc : List String) :
    rows.foldl (fun result row =>
      if row.semantics == "#this" then result ++ [row.access_url]
      else if !(row.access_url == "") && aux then result ++ [row.access_url]
      else result) acc
    = acc ++ (rows.filter (fun r =>
        r.semantics == "#this" || (!(r.access_url == "") && aux))).map
          (fun r => r.access_url) := by
  induction rows generalizing acc with
  | nil => simp
  | cons r rows ih =>
    simp only [List.foldl_cons, List.filter_cons]
    simp only [eq_self_iff_true] at ih ⊢
    cases h1 : (r.semantics == "#this") <;> cases h2 : (!(r.access_url == "") && aux) <;>
      simp [h1, h2] at ih ⊢ <;> simp [ih, List.append_assoc]

/-- extractUrls selects exactly the '#this' rows plus — when
include_auxilaries is set — the rows with a non-empty URL. -/
theorem extractUrls_eq_filter (aux : Bool) (rows : List DataLinkRow) :
    extractUrls aux rows = (rows.filter (fun r =>
      r.semantics == "#this" || (!(r.access_url == "") && aux))).map
        (fun r => r.access_url) := by
  unfold extractUrls
  simpa using extract_foldl aux rows []

/-- The outer loop of get_data_urls concatenates the per-response URL
lists in publisher-id order. -/
theorem urls_foldl (datalink : String → List DataLinkRow) (aux : Bool)
    (pids : List String) (acc : List String) :
    pids.foldl (fun result pid => result ++ extractUrls aux (datalink pid)) acc
      = acc ++ pids.flatMap (fun pid => extractUrls aux (datalink pid)) := by
  induction pids generalizing acc with
  | nil => simp
  | cons p ps ih => simp [ih, List.append_assoc]

/-! ### Claim theorems -/

/-- C1 (evidence for the code bug): for every call of the query builder
the returned payload binds the string key 'query' to the built ADQL
string, but it has no string key 'format' at all: the output format
'VOTable' sits under the Python builtin function `format`, which the
source uses as the dict key by writing the unquoted name format in the
dict literal that initialises the payload. -/
theorem C1_payload_has_query_key_but_no_format_key (ra dec radius : String)
    (collection : Option String) :
    payloadFind (_args_to_payload ra dec radius collection) (PayloadKey.str "query")
        = some (queryOf (_args_to_payload ra dec radius collection))
    ∧ payloadFind (_args_to_payload ra dec radius collection) (PayloadKey.str "format") = none
    ∧ payloadFind (_args_to_payload ra dec radius collection) PayloadKey.pyBuiltinFormat
        = some "VOTable" := by
  refine ⟨?_, ?_, ?_⟩ <;> simp [args_to_payload_eq, payloadFind, queryOf]

set_option maxRecDepth 32768 in
/-- C3 counterexample: with collection 'CFHT' and coordinates
(10.68, 41.27, 0.5), the built query does not end with the spaced text
`AND collection = 'CFHT'` stated by the claim; it does end with the
unspaced text `AND collection='CFHT'`. -/
theorem C3_spaced_clause_counterexample :
    ¬ (("AND collection = 'CFHT'").data <:+
        (queryOf (_args_to_payload "10.68" "41.27" "0.5" (some "CFHT"))).data)
    ∧ ("AND collection='CFHT'").data <:+
        (queryOf (_args_to_payload "10.68" "41.27" "0.5" (some "CFHT"))).data := by
  exact ⟨by decide, by decide⟩

/-- C3 amended: for a truthy (non-None, non-empty) collection the built
query is the base query with ` AND collection='<collection>'` appended
verbatim after the quality-flag clause — so it ends with
`AND collection='<collection>'`, no spaces around the equals sign, the
collection interpolated case-sensitively with no escaping — while a
collection of None or the empty string leaves the query equal to the base
query, which (for plain numeric coordinate renderings) contains no
collection clause. -/
theorem C3_collection_clause (ra dec radius c : String)
    (hra : ra.data.all numChar = true) (hdec : dec.data.all numChar = true)
    (hrad : radius.data.all numChar = true) (hc : c ≠ "") :
    queryOf (_args_to_payload ra dec radius (some c))
        = baseQuery ra dec radius ++ " AND collection='" ++ c ++ "'"
    ∧ ("AND collection='" ++ c ++ "'").data <:+
        (queryOf (_args_to_payload ra dec radius (some c))).data
    ∧ queryOf (_args_to_payload ra dec radius none) = baseQuery ra dec radius
    ∧ queryOf (_args_to_payload ra dec radius (some "")) = baseQuery ra dec radius
    ∧ ¬ (("collection='").data <:+:
        (queryOf (_args_to_payload ra dec radius none)).data) := by
  have hq : queryOf (_args_to_payload ra dec radius (some c))
      = baseQuery ra dec radius ++ " AND collection='" ++ c ++ "'" := by
    rw [queryOf_args_to_payload]
    simp [pyTruthy, hc]
  have hnone : queryOf (_args_to_payload ra dec radius none) = baseQuery ra dec radius := by
    rw [queryOf_args_to_payload]
    simp [pyTruthy]
  refine ⟨hq, ?_, hnone, ?_, ?_⟩
  · rw [hq]
    refine ⟨(baseQuery ra dec radius).data ++ [' '], ?_⟩
    have hsp : (" AND collection='").data = ' ' :: ("AND collection='").data := rfl
    simp [String.data_append, List.append_assoc, hsp]
  · rw [queryOf_args_to_payload]
    simp [pyTruthy]
  · rw [hnone]
    exact collectionNotInBase ra dec radius hra hdec hrad

/-- C3 witness: the amended statement holds at coordinates
(10.68, 41.27, 0.5) with collection 'CFHT'. -/
theorem C3_collection_clause_witness :
    ("10.68").data.all numChar = true
    ∧ ("41.27").data.all numChar = true
    ∧ ("0.5").data.all numChar = true
    ∧ "CFHT" ≠ ""
    ∧ (queryOf (_args_to_payload "10.68" "41.27" "0.5" (some "CFHT"))
          = baseQuery "10.68" "41.27" "0.5" ++ " AND collection='" ++ "CFHT" ++ "'"
      ∧ ("AND collection='" ++ "CFHT" ++ "'").data <:+
          (queryOf (_args_to_payload "10.68" "41.27" "0.5" (some "CFHT"))).data
      ∧ queryOf (_args_to_payload "10.68" "41.27" "0.5" none) = baseQuery "10.68" "41.27" "0.5"
      ∧ queryOf (_args_to_payload "10.68" "41.27" "0.5" (some "")) = baseQuery "10.68" "41.27" "0.5"
      ∧ ¬ (("collection='").data <:+:
          (queryOf (_args_to_payload "10.68" "41.27" "0.5" none)).data)) :=
  ⟨by decide, by decide, by decide, by decide,
    C3_collection_clause "10.68" "41.27" "0.5" "CFHT" (by decide) (by decide) (by decide)
      (by decide)⟩

set_option maxRecDepth 32768 in
/-- C6 confirmed: with no collection supplied (and plain numeric
renderings of ra, dec, radius) the built query contains the clause
CIRCLE('ICRS', ra, dec, radius) with exactly those three values, followed
immediately by `, position_bounds) = 1` and the quality-flag clause as the
query's tail, and the query contains no collection clause. -/
theorem C6_circle_clause_no_collection (ra dec radius : String)
    (hra : ra.data.all numChar = true) (hdec : dec.data.all numChar = true)
    (hrad : radius.data.all numChar = true) :
    ("CIRCLE('ICRS', " ++ ra ++ ", " ++ dec ++ ", " ++ radius ++ ")").data <:+:
        (queryOf (_args_to_payload ra dec radius none)).data
    ∧ ("CIRCLE('ICRS', " ++ ra ++ ", " ++ dec ++ ", " ++ radius
        ++ "), position_bounds) = 1 AND (quality_flag IS NULL OR quality_flag != 'junk')").data <:+
        (queryOf (_args_to_payload ra dec radius none)).data
    ∧ ¬ (("collection='").data <:+:
        (queryOf (_args_to_payload ra dec radius none)).data) := by
  have hq : queryOf (_args_to_payload ra dec radius none) = baseQuery ra dec radius := by
    rw [queryOf_args_to_payload]
    simp [pyTruthy]
  refine ⟨?_, ?_, ?_⟩
  · rw [hq]
    refine ⟨("SELECT * from caom2.Observation o join caom2.Plane p ON o.obsID=p.obsID WHERE INTERSECTS( ").data,
      (", position_bounds) = 1 AND (quality_flag IS NULL OR quality_flag != 'junk')").data, ?_⟩
    rw [baseQuery]
    simp [String.data_append, List.append_assoc, List.cons_append]
  · rw [hq]
    refine ⟨("SELECT * from caom2.Observation o join caom2.Plane p ON o.obsID=p.obsID WHERE INTERSECTS( ").data, ?_⟩
    rw [baseQuery]
    simp [String.data_append, List.append_assoc, List.cons_append]
  · rw [hq]
    exact collectionNotInBase ra dec radius hra hdec hrad

/-- C6 witness: the statement holds at coordinates (10.68, 41.27, 0.5). -/
theorem C6_circle_clause_no_collection_witness :
    ("10.68").data.all numChar = true
    ∧ ("41.27").data.all numChar = true
    ∧ ("0.5").data.all numChar = true
    ∧ (("CIRCLE('ICRS', " ++ "10.68" ++ ", " ++ "41.27" ++ ", " ++ "0.5" ++ ")").data <:+:
          (queryOf (_args_to_payload "10.68" "41.27" "0.5" none)).data
      ∧ ("CIRCLE('ICRS', " ++ "10.68" ++ ", " ++ "41.27" ++ ", " ++ "0.5"
          ++ "), position_bounds) = 1 AND (quality_flag IS NULL OR quality_flag != 'junk')").data <:+
          (queryOf (_args_to_payload "10.68" "41.27" "0.5" none)).data
      ∧ ¬ (("collection='").data <:+:
          (queryOf (_args_to_payload "10.68" "41.27" "0.5" none)).data)) :=
  ⟨by decide, by decide, by decide,
    C6_circle_clause_no_collection "10.68" "41.27" "0.5" (by decide) (by decide) (by decide)⟩

/-- C7 confirmed: result extraction outside the dispatcher's own flow
raises the query-not-completed error exactly when the job's phase is not
COMPLETED, and for a COMPLETED job it returns the job's result table
unchanged. -/
theorem C7_parse_result_phase_gate (j : JobCadc) :
    (_parse_result j = .error (.runtimeError "Query not completed") ↔ j.phase ≠ "COMPLETED")
    ∧ (j.phase = "COMPLETED" → _parse_result j = .ok j.results) := by
  by_cases hp : j.phase = "COMPLETED" <;> simp [_parse_result, hp]

/-- C8 confirmed: an HTTP error from the delegated client's job listing is
caught and turned into an empty result (None); without an error, the call
returns one local job wrapper per job reported by the delegated client,
in order, each carrying that job's id (and a None job list from the
delegate yields the empty list). -/
theorem C8_list_async_jobs_swallows_http_error (e : HttpError) (joblist : List ListedJob) :
    list_async_jobs (.error e) = none
    ∧ list_async_jobs (.ok none) = some []
    ∧ ∃ l, list_async_jobs (.ok (some joblist)) = some l
        ∧ l.length = joblist.length
        ∧ l.map (fun j => j.jobid) = joblist.map (fun j => j.jobid) := by
  refine ⟨rfl, rfl, _, rfl, by simp, ?_⟩
  simp [list_async_jobs, List.map_map]

/-- C9 confirmed: run_query with an operation other than 'sync' or
'async' launches no job on the delegated client and produces no defined
error value: it falls through to the read of the never-assigned locals
job and op, i.e. an UnboundLocalError. -/
theorem C9_run_query_invalid_operation (client : TapClient) (query : String)
    (operation : String) (output_file : Option String)
    (h1 : operation ≠ "sync") (h2 : operation ≠ "async") :
    run_query client query operation output_file = ⟨[], .error .unboundLocalError⟩ := by
  simp [run_query, h1, h2]

/-- C9 witness: the statement holds for the operation string 'foo'. -/
theorem C9_run_query_invalid_operation_witness :
    ("foo" ≠ "sync") ∧ ("foo" ≠ "async")
    ∧ run_query
        ⟨fun _ _ _ => ⟨"", none, 0, "", none, "", "", "PENDING", none⟩,
         fun _ _ _ => ⟨"", none, 0, "", none, "", "", "PENDING", none⟩,
         fun _ => none⟩ "q" "foo" none = ⟨[], .error .unboundLocalError⟩ :=
  ⟨by decide, by decide,
    C9_run_query_invalid_operation _ "q" "foo" none (by decide) (by decide)⟩

/-- C10 confirmed: the emptiness check precedes the column check: an
empty (zero-row) table always raises the empty-input error — never the
missing-column error — even when the caomPublisherID column is absent. -/
theorem C10_empty_check_precedes_column_check (datalink : String → List DataLinkRow)
    (t : QueryResult) (aux : Bool) (h : t.nrows = 0) :
    (get_data_urls datalink t aux).result = .error (.attributeError "Missing metadata argument")
    ∧ (get_data_urls datalink t aux).result
        ≠ .error (.attributeError "caomPublisherID column missing from query_result argument") := by
  refine ⟨by simp [get_data_urls, h], ?_⟩
  simp [get_data_urls, h]

/-- C10 witness: the statement holds for the empty table that also lacks
the caomPublisherID column. -/
theorem C10_empty_check_precedes_column_check_witness :
    (QueryResult.mk 0 []).nrows = 0
    ∧ ((get_data_urls (fun _ => []) ⟨0, []⟩ false).result
          = .error (.attributeError "Missing metadata argument")
      ∧ (get_data_urls (fun _ => []) ⟨0, []⟩ false).result
          ≠ .error (.attributeError "caomPublisherID column missing from query_result argument")) :=
  ⟨rfl, C10_empty_check_precedes_column_check (fun _ => []) ⟨0, []⟩ false rfl⟩

/-- C2 counterexample: a line whose value contains a further '=' does not
yield one entry keyed on the first '=': the tuple unpacking of the
three-part split raises a ValueError, so the parse fails instead of
producing the claimed mapping. -/
theorem C2_multi_equals_counterexample :
    _parse_reg "serv = http://host/caps?a=b" = .error .valueError
    ∧ _parse_reg "serv = http://host/caps?a=b" ≠ .ok [("serv", "http://host/caps?a=b")] := by
  refine ⟨rfl, ?_⟩
  intro h
  have h' : (Except.error .valueError : Except PyError (List (String × String)))
      = .ok [("serv", "http://host/caps?a=b")] := h
  exact Except.noConfusion h'

/-- C2 amended: for a registry document each of whose non-empty,
non-comment lines contains exactly one '=' (and whose stripped keys are
pairwise distinct), parsing yields exactly one mapping entry per such
line, in order: the part before the '=' stripped of surrounding
whitespace as the key, the part after it stripped as the value. A line
with no '=' or with more than one '=' instead makes the parse raise a
ValueError. -/
theorem C2_one_entry_per_registry_line (content : String)
    (hsplit : ((regLines content).all (fun l => (pysplit '=' l).length == 2)) = true)
    (hnodup : ((regLines content).map regKeyOf).Nodup) :
    _parse_reg content
      = .ok ((regLines content).map (fun l => (regKeyOf l, regValOf l))) := by
  show (pylines content.data).foldlM parseRegLine [] = _
  rw [parse_reg_fold (pylines content.data) [] ?_ ?_ ?_]
  · simp [regLines]
  · intro l hl hg
    have hmem : l ∈ regLines content := List.mem_filter.mpr ⟨hl, hg⟩
    have := List.all_eq_true.mp hsplit l hmem
    simpa using this
  · intro l hl hg
    rfl
  · exact hnodup

/-- C2 witness: the amended statement holds on the registry document
`svc1 = http://a`, `# comment`, `svc2=http://b`, giving the two stripped
entries. -/
theorem C2_one_entry_per_registry_line_witness :
    ((regLines "svc1 = http://a\n# comment\nsvc2=http://b\n").all
        (fun l => (pysplit '=' l).length == 2)) = true
    ∧ ((regLines "svc1 = http://a\n# comment\nsvc2=http://b\n").map regKeyOf).Nodup
    ∧ _parse_reg "svc1 = http://a\n# comment\nsvc2=http://b\n"
        = .ok [("svc1", "http://a"), ("svc2", "http://b")] :=
  ⟨by decide, by decide, by
    rw [C2_one_entry_per_registry_line _ (by decide) (by decide)]
    rfl⟩

/-- C4 confirmed: on a non-empty table carrying the caomPublisherID
column, get_data_urls with include_auxiliaries=False returns exactly the
access URL of every '#this' row, in input order (one DataLink response
per publisher id, concatenated); with include_auxiliaries=True it returns
the URLs of the rows that are '#this' (kept even when the URL is empty)
or have a non-empty access URL. -/
theorem C4_get_data_urls_url_selection (datalink : String → List DataLinkRow)
    (t : QueryResult) (pids : List String)
    (h1 : t.nrows ≠ 0) (h2 : getColumn t "caomPublisherID" = some pids) :
    (get_data_urls datalink t false).result
      = .ok (pids.flatMap (fun pid =>
          ((datalink pid).filter (fun r => r.semantics == "#this")).map
            (fun r => r.access_url)))
    ∧ (get_data_urls datalink t true).result
      = .ok (pids.flatMap (fun pid =>
          ((datalink pid).filter (fun r => r.semantics == "#this" || !(r.access_url == ""))).map
            (fun r => r.access_url))) := by
  constructor <;>
  · simp [get_data_urls, h1, h2]
    rw [urls_foldl]
    simp [extractUrls_eq_filter]

/-- C4 witness: the statement holds for the one-row table with publisher
id id1 whose DataLink response has a '#this' row with URL u1 and a
'#preview' row with URL u2: the claim's scenario. -/
theorem C4_get_data_urls_url_selection_witness :
    (QueryResult.mk 1 [("caomPublisherID", ["id1"])]).nrows ≠ 0
    ∧ getColumn ⟨1, [("caomPublisherID", ["id1"])]⟩ "caomPublisherID" = some ["id1"]
    ∧ (get_data_urls (fun _ => [⟨"#this", "u1"⟩, ⟨"#preview", "u2"⟩])
        ⟨1, [("caomPublisherID", ["id1"])]⟩ false).result = .ok ["u1"]
    ∧ (get_data_urls (fun _ => [⟨"#this", "u1"⟩, ⟨"#preview", "u2"⟩])
        ⟨1, [("caomPublisherID", ["id1"])]⟩ true).result = .ok ["u1", "u2"] :=
  ⟨by decide, rfl,
    (C4_get_data_urls_url_selection (fun _ => [⟨"#this", "u1"⟩, ⟨"#preview", "u2"⟩])
      ⟨1, [("caomPublisherID", ["id1"])]⟩ ["id1"] (by decide) rfl).1,
    (C4_get_data_urls_url_selection (fun _ => [⟨"#this", "u1"⟩, ⟨"#preview", "u2"⟩])
      ⟨1, [("caomPublisherID", ["id1"])]⟩ ["id1"] (by decide) rfl).2⟩

/-- C5 counterexample: the empty table that also lacks the
caomPublisherID column fails with the empty-input error, not with the
missing-column error the claim requires for every table lacking the
column. -/
theorem C5_empty_table_lacking_column_counterexample :
    getColumn ⟨0, []⟩ "caomPublisherID" = none
    ∧ (get_data_urls (fun _ => []) ⟨0, []⟩ true).result
        = .error (.attributeError "Missing metadata argument")
    ∧ (get_data_urls (fun _ => []) ⟨0, []⟩ true).result
        ≠ .error (.attributeError "caomPublisherID column missing from query_result argument") := by
  refine ⟨rfl, rfl, ?_⟩
  intro h
  have h' : (Except.error (.attributeError "Missing metadata argument")
        : Except PyError (List String))
      = .error (.attributeError "caomPublisherID column missing from query_result argument") := h
  injection h' with h1
  injection h1 with h2
  exact absurd h2 (by decide)

/-- C5 amended: a non-empty table lacking the caomPublisherID column
fails with the missing-column error; an empty (falsy) table — even one
that also lacks the column — fails with the empty-input error; in both
cases no DataLink request is issued. -/
theorem C5_get_data_urls_error_checks (datalink : String → List DataLinkRow)
    (t : QueryResult) (aux : Bool) :
    (t.nrows ≠ 0 → getColumn t "caomPublisherID" = none →
      get_data_urls datalink t aux
        = ⟨[], .error (.attributeError "caomPublisherID column missing from query_result argument")⟩)
    ∧ (t.nrows = 0 →
      get_data_urls datalink t aux
        = ⟨[], .error (.attributeError "Missing metadata argument")⟩) := by
  constructor
  · intro h1 h2
    simp [get_data_urls, h1, h2]
  · intro h
    simp [get_data_urls, h]

end Cadc
